import Mathlib

/-!
# Verification of the netcall RPC core (baojie/netcall)

Shallow embedding of the service/client cores of the netcall RPC library
(and of the legacy zpyrpc service it evolved from), together with theorems
settling the specification claims.

Conventions of the embedding:
* A transport frame is an opaque byte string, modelled as `String`
  (the code base is Python 2, where `str` and `bytes` coincide).
* External serializer output is modelled by injective tagging functions
  (serializers are explicitly outside the specified core).
* Python functions that can raise are embedded as `Except PyErr _`;
  a `.error` outcome means "the Python function raised this exception".
* Tables (`dict`s) are association lists with Python-dict insert/delete
  semantics (a key occurs at most once).
-/

namespace Netcall

/-- A multipart-message frame: an opaque byte string. -/
abbrev Frame := String

/-- The literal separator frame `b'|'` between route prefix and body. -/
def SEP : Frame := "|"

/-- Python values passed to / returned from procedures (opaque model). -/
inductive Value where
  | vnone : Value
  | vint  : Int → Value
  | vstr  : String → Value
  deriving DecidableEq, Repr

/-- A Python exception, reduced to the fields the wire protocol carries:
class name (`ename`), string form (`evalue`) and a formatted traceback. -/
structure PyErr where
  ename  : String
  evalue : String
  tb     : String := ""
  deriving DecidableEq, Repr

abbrev Args   := List Value
abbrev Kwargs := List (String × Value)

/-- Python 2 `repr` of a byte string without quote characters:
`"%r" % name` surrounds the name with single quotes. -/
def pyRepr (s : String) : String := "\x27" ++ s ++ "\x27"

/-! ## Generators and callables

A Python generator is observed by the service only through `gene.send`,
`gene.throw` and `gene.close` (src/netcall/green/service.py lines 144-159).
`send`/`throw` either produce the next yielded value together with the
follow-up generator state, or raise (normal exhaustion raises
`StopIteration`, which is an ordinary exception to the driver's bare
`except`). `close` either returns quietly or raises. Only finitely deep
behaviour trees are representable, which suffices: the driver advances the
generator once per client command. -/

mutual

inductive Gen where
  | mk : (Args → GenResp) → (PyErr → GenResp) → Option PyErr → Gen

inductive GenResp where
  | yields : Value → Gen → GenResp
  | raises : PyErr → GenResp

end

/-- `gene.send(args)` (the driver passes the whole `args` list). -/
def Gen.send : Gen → Args → GenResp
  | .mk s _ _, a => s a

/-- `gene.throw(ex_class, evalue)`. -/
def Gen.throwTo : Gen → PyErr → GenResp
  | .mk _ t _, e => t e

/-- `gene.close()`: `none` when it returns quietly, `some e` when it raises. -/
def Gen.closeRes : Gen → Option PyErr
  | .mk _ _ c => c

/-- Result of calling a registered procedure: a plain value or a generator
(the green service distinguishes the two with `isinstance(res, GeneratorType)`). -/
inductive CallResult where
  | val : Value → CallResult
  | gen : Gen → CallResult

/-- A Python object as it may be passed to `register`: either a callable —
with its `__name__` and its behaviour on `(args, kwargs)` (`.error e` means
the call raised `e`) — or a non-callable value. -/
inductive PyObj where
  | callable (name : String) (run : Args → Kwargs → Except PyErr CallResult)
  | plain (v : Value)

def PyObj.isCallable : PyObj → Bool
  | .callable _ _ => true
  | .plain _ => false

/-- `obj.__name__` (meaningful for callables only). -/
def PyObj.pyName : PyObj → String
  | .callable n _ => n
  | .plain _ => ""

/-! ## Python `dict` as an association list

`insert` overwrites any previous binding of the key, `erase` is `del`,
so each key occurs at most once in any table reachable by these operations. -/

/-- `d[k]` / `d.get(k)`: value of the first (hence, for a dict, only)
binding of `k`. -/
def dictGet {α : Type} (k : String) : List (String × α) → Option α
  | [] => none
  | p :: t => if p.1 = k then some p.2 else dictGet k t

/-- `del d[k]`: drop every binding of `k`. -/
def dictDel {α : Type} (k : String) : List (String × α) → List (String × α)
  | [] => []
  | p :: t => if p.1 = k then dictDel k t else p :: dictDel k t

/-- `d[k] = v`: bind `k` to `v`, overwriting. -/
def dictSet {α : Type} (k : String) (v : α) (t : List (String × α)) :
    List (String × α) :=
  (k, v) :: dictDel k t

/-- Number of entries stored under key `k`. -/
def dictCount {α : Type} (k : String) : List (String × α) → Nat
  | [] => 0
  | p :: t => (if p.1 = k then 1 else 0) + dictCount k t

/-- The keys of a table. -/
def dictKeys {α : Type} (t : List (String × α)) : List String :=
  t.map Prod.fst

/-- `self.procedures`: procedure name → callable. -/
abbrev Procedures := List (String × PyObj)

/-! ## Serializer and error-dict models

Serializer implementations are outside the specified core; their output is
modelled by injective tagging into frames. -/

/-- `self._serializer.serialize_result(result)` reduced to one frame. -/
def serValue : Value → Frame
  | .vnone => "ser:none"
  | .vint n => "ser:int:" ++ toString n
  | .vstr s => "ser:str:" ++ s

/-- Serialized result frames; a generator object serializes opaquely
(the threading service never checks for generators before serializing). -/
def serCallResult : CallResult → List Frame
  | .val v => [serValue v]
  | .gen _ => ["ser:genobj"]

/-- `jsonapi.dumps({'ename': ..., 'evalue': ..., 'traceback': ...})`
(src/netcall/service.py lines 74-80), modelled injectively. -/
def jsonErr (e : PyErr) : Frame :=
  "json:ename=" ++ e.ename ++ ";evalue=" ++ e.evalue ++ ";traceback=" ++ e.tb

/-! ## Replies

Every reply the services build goes through `_build_reply`
(src/netcall/service.py lines 128-143):
`reply = route + [b'|', msg_id, status] + data`.
A `Reply` record keeps the four parts; `Reply.frames` is the flat
multipart message exactly as `_build_reply` assembles it. -/

structure Reply where
  route  : List Frame
  req_id : Frame
  status : Frame
  data   : List Frame
  deriving DecidableEq, Repr

/-- The flat frame list sent on the socket. -/
def Reply.frames (r : Reply) : List Frame :=
  r.route ++ [SEP, r.req_id, r.status] ++ r.data

/-! ## Legacy service base: src/netcall/service.py -/

/-- `RPCServiceBase._RESERVED` (src/netcall/service.py line 50) —
note the misspelling `registser`. -/
def RESERVED : List String := ["registser", "proc", "task", "start", "stop", "serve"]

/-- `RPCServiceBase.__init__` (src/netcall/service.py lines 52-64):
starting from an empty table, every attribute of the fresh instance whose
name neither starts with `_` nor is in `RESERVED`, and whose value is
callable, is inserted under its name. `attrs` enumerates `dir(self)`
with each attribute's value. `initStep` is one iteration of the loop:
skip a name starting with `_` or listed in `RESERVED`, store any other
callable attribute. `name.startswith('_')` is the first-character test. -/
def startsWithUnderscore (n : String) : Bool :=
  match n.data with
  | [] => false
  | c :: _ => c = '_'

def initStep (t : Procedures) (p : String × PyObj) : Procedures :=
  if startsWithUnderscore p.1 ∨ p.1 ∈ RESERVED then t
  else if p.2.isCallable then dictSet p.1 p.2 t
  else t

/-- The `procedures` table right after `RPCServiceBase.__init__`
(src/netcall/service.py lines 52-64): the loop over `dir(self)` applied
to the empty dict. -/
def initProcedures (attrs : List (String × PyObj)) : Procedures :=
  attrs.foldl initStep []

/-- What `register` returns when it does not raise. -/
inductive RegisterOutcome where
  | curried  : String → RegisterOutcome   -- `partial(self.register, name=name)`
  | returned : PyObj → RegisterOutcome    -- `return func`

/-- `RPCServiceBase.register` (src/netcall/service.py lines 170-199):
with no `func` and no `name` it raises `ValueError`; with only a `name`
it returns a decorator; with a non-callable `func` it raises `ValueError`;
otherwise it stores `func` under `name` (or `func.__name__`) and returns
`func`. No reserved-name check of any kind is performed. -/
def register (procs : Procedures) (func : Option PyObj) (name : Option String) :
    Except PyErr (Procedures × RegisterOutcome) :=
  match func with
  | none =>
    match name with
    | none => .error ⟨"ValueError", "at least one argument is required", ""⟩
    | some n => .ok (procs, .curried n)
  | some f =>
    if ¬ f.isCallable then
      .error ⟨"ValueError", "func argument should be callable", ""⟩
    else
      let n := name.getD f.pyName
      .ok (dictSet n f procs, .returned f)

/-- The request dict built by the legacy `_parse_request`
(src/netcall/service.py lines 84-127). -/
structure LegacyRequest where
  route  : List Frame
  msg_id : Frame
  proc   : Option PyObj
  args   : Args
  kwargs : Kwargs
  error  : Option PyErr

/-- `RPCServiceBase._parse_request` (src/netcall/service.py lines 84-127).
`deser` is the external `self._serializer.deserialize_args_kwargs`.
Faithful to the Python control flow, including its failure modes:
* `msg_list[boundary+2]` raises `IndexError` when the first `b'|'` is
  among the last two frames;
* when `deser` raises, the `except` clause only sets `error = e`, so the
  subsequent `dict(..., args=args, ...)` raises `UnboundLocalError`
  (`args` was never assigned). -/
def parse_request (procs : Procedures)
    (deser : List Frame → Except PyErr (Args × Kwargs))
    (msg_list : List Frame) : Except PyErr (Option LegacyRequest) :=
  if msg_list.length < 5 ∨ ¬ msg_list.contains SEP then .ok none
  else
    let boundary := msg_list.indexOf SEP
    match msg_list.get? (boundary + 2) with
    | none => .error ⟨"IndexError", "list index out of range", ""⟩
    | some name =>
      let proc := dictGet name procs
      let err0 : Option PyErr :=
        if proc.isNone then
          some ⟨"NotImplementedError", "Unregistered procedure " ++ pyRepr name, ""⟩
        else none
      match deser (msg_list.drop (boundary + 3)) with
      | .error _ =>
        .error ⟨"UnboundLocalError",
                "local variable " ++ pyRepr "args" ++ " referenced before assignment", ""⟩
      | .ok (args, kwargs) =>
        .ok (some { route  := msg_list.take boundary
                    msg_id := msg_list.getD (boundary + 1) ""
                    proc   := proc
                    args   := args
                    kwargs := kwargs
                    error  := err0 })

/-- `RPCServiceBase._build_reply` (src/netcall/service.py lines 128-143). -/
def build_reply (req : LegacyRequest) (status : Frame) (data : List Frame) : Reply :=
  { route := req.route, req_id := req.msg_id, status := status, data := data }

/-- `RPCServiceBase._send_ok` (src/netcall/service.py lines 65-70). -/
def send_ok (req : LegacyRequest) (result : Value) : Reply :=
  build_reply req "OK" [serValue result]

/-- `RPCServiceBase._send_fail` (src/netcall/service.py lines 71-83),
with `e` the exception taken from `sys.exc_info()`. -/
def send_fail (req : LegacyRequest) (e : PyErr) : Reply :=
  build_reply req "FAIL" [jsonErr e]

/-! ## Current service base (the `..base` module imported by
src/netcall/threading/service.py and src/netcall/green/service.py) -/

/-- The streaming command names (src/netcall/green/service.py line 124). -/
def YIELD_CMDS : List String := ["YIELD_SEND", "YIELD_THROW", "YIELD_CLOSE"]

/-- What the `proc` slot of a parsed request holds: the command name itself
for a streaming command (`req['proc'] in ['YIELD_SEND', ...]` at
src/netcall/green/service.py line 124 compares it against strings), the
resolved callable, or nothing for an unregistered name. -/
inductive ProcSlot where
  | yieldCmd : String → ProcSlot
  | found    : PyObj → ProcSlot
  | missing  : ProcSlot

/-- Calling whatever the `proc` slot holds (`req['proc'](*args, **kwargs)`,
src/netcall/threading/service.py line 120): calling a string or `None`
raises `TypeError`. -/
def ProcSlot.call : ProcSlot → Args → Kwargs → Except PyErr CallResult
  | .found (.callable _ run), a, k => run a k
  | .found (.plain _), _, _ => .error ⟨"TypeError", "object is not callable", ""⟩
  | .yieldCmd _, _, _ => .error ⟨"TypeError", "'str' object is not callable", ""⟩
  | .missing, _, _ => .error ⟨"TypeError", "'NoneType' object is not callable", ""⟩

/-- The request dict produced by the current base's `_parse_request`
(docstring of src/netcall/green/service.py lines 75-100). -/
structure Request where
  route  : List Frame
  req_id : Frame
  args   : Args
  kwargs : Kwargs
  ignore : Bool
  proc   : ProcSlot
  error  : Option PyErr

/-- The request's procedure-name frame. -/
def Request.proc_name (r : Request) : String :=
  match r.proc with
  | .yieldCmd c => c
  | .found f => f.pyName
  | .missing => ""

/-- Modelled from the spec: `_parse_request` of the current
`RPCServiceBase` lives in `netcall/base.py`, which is absent from the
source tree (only its subclasses, callers and tests are present). Per
spec §4.2 and §6 and the handler docstrings
(src/netcall/green/service.py lines 75-100) the request is
`[route..., b'|', req_id, proc_name, <args frames...>, ignore_byte]`:
* no separator, or a body shorter than the minimum, yields `None`;
  the parser never raises;
* `ignore` is the truthiness of the final byte (`0x00` = falsy);
* a streaming command name is passed through in the `proc` slot
  (spec §4.5 step 3 handles it before registry resolution);
* an unregistered name attaches a `NotImplementedError` whose message is
  the one built by the present legacy parser
  (src/netcall/service.py line 111);
* a deserialization failure is attached as the request's `error`
  (spec §4.1: "fails with a decode error that is attached to the
  request and later surfaced to the caller"). -/
def parse_request_v2 (procs : Procedures)
    (deser : List Frame → Except PyErr (Args × Kwargs))
    (msg_list : List Frame) : Option Request :=
  if ¬ msg_list.contains SEP then none
  else
    let boundary := msg_list.indexOf SEP
    match msg_list.get? (boundary + 1), msg_list.get? (boundary + 2) with
    | some req_id, some name =>
      let body := msg_list.drop (boundary + 3)
      if body.isEmpty then none   -- no ignore byte: below minimum length
      else
        let ignore := body.getLastD "\x00" ≠ "\x00"
        let slot : ProcSlot :=
          if name ∈ YIELD_CMDS then .yieldCmd name
          else match dictGet name procs with
            | some f => .found f
            | none => .missing
        let err0 : Option PyErr :=
          match slot with
          | .missing =>
            some ⟨"NotImplementedError", "Unregistered procedure " ++ pyRepr name, ""⟩
          | _ => none
        match deser body.dropLast with
        | .error e =>
          some { route := msg_list.take boundary, req_id := req_id,
                 args := [], kwargs := [], ignore := ignore,
                 proc := slot, error := some e }
        | .ok (args, kwargs) =>
          some { route := msg_list.take boundary, req_id := req_id,
                 args := args, kwargs := kwargs, ignore := ignore,
                 proc := slot, error := err0 }
    | _, _ => none

/-- `_send_ack` (spec §4.5 step 2 and the handler docstrings):
`[route.., b'|', req_id, b'ACK', service_id]`. -/
def ack_reply (req : Request) (service_id : Frame) : Reply :=
  { route := req.route, req_id := req.req_id, status := "ACK", data := [service_id] }

/-- `_send_ok` on the current base: same `_build_reply` shape as the
legacy one (src/netcall/service.py lines 65-70). -/
def ok_reply (req : Request) (res : CallResult) : Reply :=
  { route := req.route, req_id := req.req_id, status := "OK", data := serCallResult res }

/-- `_send_fail` on the current base (src/netcall/service.py lines 71-83). -/
def fail_reply (req : Request) (e : PyErr) : Reply :=
  { route := req.route, req_id := req.req_id, status := "FAIL", data := [jsonErr e] }

/-- `_send_yield` (spec §4.5: a YIELD reply, empty payload on the
handshake `_send_yield(req, None)`). -/
def yield_reply (req : Request) (v : Option Value) : Reply :=
  { route := req.route, req_id := req.req_id, status := "YIELD",
    data := match v with | none => [] | some v => [serValue v] }

/-! ## Threading service: src/netcall/threading/service.py -/

/-- The body of the `try`/`except`/`else` of
`ThreadingRPCService._handle_request` (lines 115-120): re-raise any parse
error, otherwise call the procedure. -/
def dispatch (req : Request) : Except PyErr CallResult :=
  match req.error with
  | some e => .error e
  | none => req.proc.call req.args req.kwargs

/-- `ThreadingRPCService._handle_request`
(src/netcall/threading/service.py lines 89-125), observed as the ordered
list of replies handed to `_send_reply`: a bad request is dropped;
otherwise an ACK is sent, then — unless `ignore` — one FAIL (the parse
error re-raised, or the procedure's exception) or one OK. -/
def threading_handle_request (service_id : Frame) (procs : Procedures)
    (deser : List Frame → Except PyErr (Args × Kwargs))
    (msg_list : List Frame) : List Reply :=
  match parse_request_v2 procs deser msg_list with
  | none => []
  | some req =>
    ack_reply req service_id ::
    match dispatch req with
    | .error e => if req.ignore then [] else [fail_reply req e]
    | .ok res => if req.ignore then [] else [ok_reply req res]

/-! ## Green service: src/netcall/green/service.py -/

/-- One command handed to a generator driver:
`(req['proc'], req['args'])` as enqueued at line 128. -/
abbrev Cmd := String × Args

/-- `self.yield_send_queues` (line 65): req_id → queued commands of the
one-slot `gevent.queue.Queue(1)`. -/
abbrev GTable := List (String × List Cmd)

/-- `exceptions` module lookup of `YIELD_THROW` (lines 151-153):
`ex_class = getattr(exceptions, args[0], Exception)` — an unknown class
name falls back to `Exception`; `eargs = args[:2]`. -/
def knownExcNames : List String :=
  ["Exception", "ValueError", "TypeError", "StopIteration", "GeneratorExit",
   "KeyError", "RuntimeError", "ArithmeticError"]

/-- Python `str()` of a value. -/
def valueStr : Value → String
  | .vnone => "None"
  | .vint n => toString n
  | .vstr s => s

/-- The exception injected by the `YIELD_THROW` branch (lines 150-154). -/
def resolveThrow (args : Args) : PyErr :=
  let ename :=
    match args.head? with
    | some (.vstr n) => if n ∈ knownExcNames then n else "Exception"
    | _ => "Exception"
  let ev := match args.get? 1 with | some v => valueStr v | none => ""
  ⟨ename, ev, ""⟩

/-- The generator drive loop (src/netcall/green/service.py lines 144-161),
fed by the successive commands delivered by the request's one-slot queue.
Returns the replies it sends and either `none` — the loop exited (by
`break` after `YIELD_CLOSE`, or via the bare `except` sending FAIL; the
`StopIteration` of a spent generator takes the same `except` path) — or
`some g` — the driver is still parked on `queue.get()` with generator
state `g` (the `finally` deleting the table entry has not run). -/
def drive (req : Request) : Gen → List Cmd → List Reply × Option Gen
  | g, [] => ([], some g)
  | g, c :: rest =>
    if c.1 = "YIELD_SEND" then
      match g.send c.2 with
      | .yields v k =>
        let (rs, out) := drive req k rest
        (yield_reply req (some v) :: rs, out)
      | .raises e => ([fail_reply req e], none)
    else if c.1 = "YIELD_THROW" then
      match g.throwTo (resolveThrow c.2) with
      | .yields v k =>
        let (rs, out) := drive req k rest
        (yield_reply req (some v) :: rs, out)
      | .raises e => ([fail_reply req e], none)
    else
      match g.closeRes with
      | none => ([ok_reply req (.val .vnone)], none)
      | some e => ([fail_reply req e], none)

/-- `GeventRPCService._handle_request`
(src/netcall/green/service.py lines 72-167), observed as the ordered list
of replies sent plus the final `yield_send_queues` table. `cmds` is the
sequence of commands the request's queue will deliver if a generator
driver starts. A bad request is dropped. Otherwise: ACK; a parse error is
re-raised (FAIL unless `ignore`); a streaming command with an unknown
req_id raises `ValueError` (FAIL unless `ignore`) while a known req_id
gets the command enqueued; a procedure call that raises gives FAIL unless
`ignore`; with `ignore` set nothing further is sent; a generator result
registers the queue, sends the YIELD handshake and drives the generator,
deleting the table entry when the driver exits; a plain result gets OK. -/
def green_handle_request (service_id : Frame) (procs : Procedures)
    (deser : List Frame → Except PyErr (Args × Kwargs))
    (gtable : GTable) (cmds : List Cmd) (msg_list : List Frame) :
    List Reply × GTable :=
  match parse_request_v2 procs deser msg_list with
  | none => ([], gtable)
  | some req =>
    let ack := ack_reply req service_id
    match req.error with
    | some e => (ack :: (if req.ignore then [] else [fail_reply req e]), gtable)
    | none =>
      match req.proc with
      | .yieldCmd c =>
        match dictGet req.req_id gtable with
        | none =>
          let e : PyErr := ⟨"ValueError", "req_id does not refer to a known generator", ""⟩
          (ack :: (if req.ignore then [] else [fail_reply req e]), gtable)
        | some q =>
          ([ack], dictSet req.req_id (q ++ [(c, req.args)]) gtable)
      | slot =>
        match slot.call req.args req.kwargs with
        | .error e => (ack :: (if req.ignore then [] else [fail_reply req e]), gtable)
        | .ok res =>
          if req.ignore then ([ack], gtable)
          else
            match res with
            | .gen g =>
              let gtable1 := dictSet req.req_id [] gtable
              let (rs, out) := drive req g cmds
              let gtableF :=
                match out with
                | none => dictDel req.req_id gtable1
                | some _ => gtable1
              (ack :: yield_reply req none :: rs, gtableF)
            | .val v => ([ack, ok_reply req (.val v)], gtable)

/-! ## Client core: src/netcall/threading/client.py and
src/netcall/green/client.py -/

/-- A parsed inbound reply, as used by the reader loops
(`reply['req_id']`, `reply['type']`, `reply['result']`). -/
structure ParsedReply where
  req_id : Frame
  tag    : String
  result : List Frame

/-- Modelled from the spec: `_parse_reply` lives in the absent
`netcall/base.py` / `netcall/client.py`; per spec §4.2,
`parse_reply(frames) → {req_id, tag, value_or_error} | None`, returning
`None` on a missing separator, a truncated body or an unknown tag. -/
def parse_reply (msg_list : List Frame) : Option ParsedReply :=
  if ¬ msg_list.contains SEP then none
  else
    let boundary := msg_list.indexOf SEP
    match msg_list.get? (boundary + 1), msg_list.get? (boundary + 2) with
    | some req_id, some tag =>
      if tag ∈ ["ACK", "OK", "YIELD", "FAIL"] then
        some { req_id := req_id, tag := tag, result := msg_list.drop (boundary + 3) }
      else none
    | _, _ => none

/-- `self._results`: req_id → pending result, the future identified by an
abstract id. -/
abbrev Results := List (String × Nat)

/-- What the reader does to the matched future. -/
inductive Resolution where
  | setResult    : List Frame → Resolution   -- `future.set_result(result)`
  | setException : List Frame → Resolution   -- `future.set_exception(result)`
  deriving DecidableEq, Repr

/-- The reply-processing step of `ThreadingRPCClient._io_thread`
(src/netcall/threading/client.py lines 176-203): an unparsable reply or an
ACK is skipped; otherwise the pending entry is popped — an absent entry is
an orphan (timeout) and is dropped; `OK` resolves the future with the
result, any other tag resolves it with the exception. The gevent reader
(src/netcall/green/client.py lines 110-147) pops identically for the
terminal `OK`/`FAIL` tags. -/
def io_handle_reply (results : Results) (msg_list : List Frame) :
    Results × Option (Nat × Resolution) :=
  match parse_reply msg_list with
  | none => (results, none)
  | some rep =>
    if rep.tag = "ACK" then (results, none)
    else
      match dictGet rep.req_id results with
      | none => (results, none)
      | some fid =>
        (dictDel rep.req_id results,
         some (fid, if rep.tag = "OK" then .setResult rep.result
                    else .setException rep.result))

/-- `_abort_request`, the timeout timer body
(src/netcall/threading/client.py lines 255-260 and
src/netcall/green/client.py lines 195-200): pop the entry; when one was
present, resolve its future (returned here) with `RPCTimeoutError`. -/
def abort_request (results : Results) (req_id : Frame) :
    Results × Option Nat :=
  match dictGet req_id results with
  | none => (results, none)
  | some fid => (dictDel req_id results, some fid)

/-- The `_results`-relevant checkpoints of one `call` invocation. -/
structure CallTrace where
  afterSend    : Results  -- the registry when the frames are already in the send path
  timerStarted : Bool     -- the timeout timer is running before registration
  final        : Results  -- the registry when the caller parks on its future
  earlyReturn  : Bool     -- `return None` was taken (the `ignore` path)
  deriving DecidableEq, Repr

/-- `ThreadingRPCClient.call` (src/netcall/threading/client.py
lines 241-273) in program order: `req_queue.put(msg_list)` (line 249)
hands the frames to the send path without touching `_results`; `ignore`
returns `None` at once (lines 251-252); a positive numeric timeout starts
the `Timer` (lines 254-264); only then are the future created and
registered (lines 266-267). -/
def threadingCall (results : Results) (req_id : Frame) (fid : Nat)
    (ignore : Bool) (timeout : Option Int) : CallTrace :=
  let afterSend := results
  if ignore then
    { afterSend := afterSend, timerStarted := false, final := results,
      earlyReturn := true }
  else
    let timer := match timeout with | some t => decide (0 < t) | none => false
    { afterSend := afterSend, timerStarted := timer,
      final := dictSet req_id fid results, earlyReturn := false }

/-- `GeventRPCClient.call` (src/netcall/green/client.py lines 180-206):
`socket.send_multipart` first (line 189), `ignore` returns `None`
(lines 191-192), `spawn_later` schedules the abort (lines 194-201), and
only then is the `_ReturnOrYieldResult` registered (lines 203-204). -/
def geventCall (results : Results) (req_id : Frame) (fid : Nat)
    (ignore : Bool) (timeout : Option Int) : CallTrace :=
  let afterSend := results
  if ignore then
    { afterSend := afterSend, timerStarted := false, final := results,
      earlyReturn := true }
  else
    let timer := match timeout with | some t => decide (0 < t) | none => false
    { afterSend := afterSend, timerStarted := timer,
      final := dictSet req_id fid results, earlyReturn := false }

/-! ## Legacy zpyrpc service: src/zpyrpc/service.py -/

/-- An attribute examined by the zpyrpc dispatcher: callable behaviour
plus its `is_rpc_method` mark (set by the `rpc_method` decorator,
src/zpyrpc/service.py lines 36-46). -/
structure ZProc where
  rpc : Bool
  run : Args → Kwargs → Except PyErr Value

abbrev ZMethods := List (String × ZProc)

/-- `zpyrpc.RPCServiceBase._handle_request`
(src/zpyrpc/service.py lines 149-200) with `_build_reply` (lines 133-147)
and `_send_error` (lines 190-200): `msg_list.index(b'|')` raises
`ValueError` when the separator is absent, the `method` access can raise
`IndexError`, and a deserialization failure propagates uncaught. A method
that is missing or not marked `is_rpc_method` raises
`NotImplementedError`, caught into a `b'FAILURE'` reply; a successful
call is sent with status `b'SUCCESS'`. -/
def zpyrpc_handle_request (methods : ZMethods)
    (deser : List Frame → Except PyErr (Args × Kwargs))
    (msg_list : List Frame) : Except PyErr (List Reply) :=
  if ¬ msg_list.contains SEP then
    .error ⟨"ValueError", pyRepr SEP ++ " is not in list", ""⟩
  else
    let i := msg_list.indexOf SEP
    match msg_list.get? (i + 2) with
    | none => .error ⟨"IndexError", "list index out of range", ""⟩
    | some method =>
      let idents := msg_list.take i
      let msg_id := msg_list.getD (i + 1) ""
      match deser (msg_list.drop (i + 3)) with
      | .error e => .error e
      | .ok (args, kwargs) =>
        let outcome : Except PyErr Value :=
          match dictGet method methods with
          | some zp =>
            if zp.rpc then zp.run args kwargs
            else .error ⟨"NotImplementedError", "Unknown RPC method " ++ pyRepr method, ""⟩
          | none => .error ⟨"NotImplementedError", "Unknown RPC method " ++ pyRepr method, ""⟩
        match outcome with
        | .error e =>
          .ok [{ route := idents, req_id := msg_id, status := "FAILURE", data := [jsonErr e] }]
        | .ok v =>
          .ok [{ route := idents, req_id := msg_id, status := "SUCCESS", data := [serValue v] }]

/-! ## Facts about the dict model -/

theorem dictGet_dictDel_self {α : Type} (k : String) (t : List (String × α)) :
    dictGet k (dictDel k t) = none := by
  induction t with
  | nil => rfl
  | cons a t ih =>
    by_cases h : a.1 = k <;> simp [dictDel, dictGet, h, ih]

theorem dictCount_dictDel_self {α : Type} (k : String) (t : List (String × α)) :
    dictCount k (dictDel k t) = 0 := by
  induction t with
  | nil => rfl
  | cons a t ih =>
    by_cases h : a.1 = k <;> simp [dictDel, dictCount, h, ih]

theorem dictGet_dictSet_self {α : Type} (k : String) (v : α) (t : List (String × α)) :
    dictGet k (dictSet k v t) = some v := by
  simp [dictGet, dictSet]

theorem dictCount_dictSet_self {α : Type} (k : String) (v : α) (t : List (String × α)) :
    dictCount k (dictSet k v t) = 1 := by
  simp [dictCount, dictSet, dictCount_dictDel_self]

theorem dictGet_dictSet_ne {α : Type} (k k' : String) (v : α) (t : List (String × α))
    (h : k ≠ k') : dictGet k (dictSet k' v t) = dictGet k t := by
  have hne : ¬ k' = k := fun hk => h hk.symm
  simp only [dictSet, dictGet, hne, if_false]
  induction t with
  | nil => rfl
  | cons a t ih =>
    by_cases ha : a.1 = k'
    · have hak : ¬ a.1 = k := by rw [ha]; exact hne
      simp [dictDel, dictGet, ha, hak, hne, h, ih]
    · by_cases hk : a.1 = k <;> simp [dictDel, dictGet, ha, hk, hne, h, ih]

theorem dictGet_eq_none_of_count_zero {α : Type} (k : String) (t : List (String × α))
    (h : dictCount k t = 0) : dictGet k t = none := by
  induction t with
  | nil => rfl
  | cons a t ih =>
    by_cases ha : a.1 = k
    · simp [dictCount, ha] at h
    · simp only [dictCount, ha, if_false, Nat.zero_add] at h
      simp [dictGet, ha, ih h]

/-! ## Concrete objects used in the claim theorems and witnesses -/

/-- A do-nothing callable, as in the repository's own test
`test_cannot_register_netcall_reserved` (src/tests/test_rpc_base.py
lines 51-52). -/
def dummyFn : PyObj := .callable "dummy" (fun _ _ => .ok (.val .vnone))

/-- A serializer whose `deserialize_args_kwargs` raises on any input. -/
def failDeser : List Frame → Except PyErr (Args × Kwargs) :=
  fun _ => .error ⟨"ValueError", "failed to deserialize", ""⟩

/-- A serializer that decodes anything to no arguments. -/
def emptyDeser : List Frame → Except PyErr (Args × Kwargs) :=
  fun _ => .ok ([], [])

/-! ## Claims -/

/-- C1: the spec (and src/tests/test_rpc_base.py lines 50-61) require
`register(f, name=n)` to fail with a configuration error for every
reserved `n` and to leave the procedure table unchanged. The code at
src/netcall/service.py lines 170-199 performs no reserved-name check:
registering `'proc'` — a member of the code's own `_RESERVED` list — or
`'register'` — which `_RESERVED` misspells as `'registser'` — raises
nothing and inserts the entry. -/
theorem claim_C1_register_reserved_bug :
    register [] (some dummyFn) (some "proc") =
      .ok ([("proc", dummyFn)], .returned dummyFn) ∧
    register [] (some dummyFn) (some "register") =
      .ok ([("register", dummyFn)], .returned dummyFn) ∧
    "proc" ∈ RESERVED ∧ "register" ∉ RESERVED :=
  ⟨rfl, rfl, by decide, by decide⟩

/-- C2: `_parse_request` (src/netcall/service.py lines 84-127) promises
in its own docstring that it "should not raise an exception", yet it
raises: when `deserialize_args_kwargs` fails, the `except` clause only
records the error, and the subsequent `dict(..., args=args, ...)` raises
`UnboundLocalError`; and when the first `b'|'` sits among the last two
frames, `msg_list[boundary+2]` raises `IndexError`. -/
theorem claim_C2_parse_request_raises :
    parse_request [] failDeser ["id1", SEP, "m1", "echo", "junk"] =
      .error ⟨"UnboundLocalError",
              "local variable " ++ pyRepr "args" ++ " referenced before assignment", ""⟩ ∧
    parse_request [] emptyDeser ["a", "b", "c", "d", SEP] =
      .error ⟨"IndexError", "list index out of range", ""⟩ :=
  ⟨rfl, rfl⟩

/-- Keys present after the `__init__` registration loop, over any start
table: exactly the keys of the start table plus the public, unreserved,
callable attributes encountered. -/
theorem initFold_isSome (attrs : List (String × PyObj)) :
    ∀ (t₀ : Procedures) (n : String),
      (dictGet n (attrs.foldl initStep t₀)).isSome = true ↔
        ((dictGet n t₀).isSome = true ∨
         ∃ o, (n, o) ∈ attrs ∧ startsWithUnderscore n = false ∧ n ∉ RESERVED ∧
              o.isCallable = true) := by
  induction attrs with
  | nil =>
    intro t₀ n
    simp
  | cons a attrs ih =>
    intro t₀ n
    rw [List.foldl_cons, ih]
    by_cases hskip : startsWithUnderscore a.1 ∨ a.1 ∈ RESERVED
    · rw [initStep, if_pos hskip]
      constructor
      · rintro (h | ⟨o, ho, h1, h2, h3⟩)
        · exact Or.inl h
        · exact Or.inr ⟨o, List.mem_cons_of_mem _ ho, h1, h2, h3⟩
      · rintro (h | ⟨o, ho, h1, h2, h3⟩)
        · exact Or.inl h
        · rcases List.mem_cons.mp ho with he | ho'
          · exfalso
            have ha1 : a.1 = n := by rw [← he]
            rcases hskip with hs | hs
            · rw [ha1, h1] at hs; exact Bool.false_ne_true hs
            · rw [ha1] at hs; exact h2 hs
          · exact Or.inr ⟨o, ho', h1, h2, h3⟩
    · have h1a : startsWithUnderscore a.1 = false := by
        rcases Bool.eq_false_or_eq_true (startsWithUnderscore a.1) with h | h
        · exact absurd (Or.inl h) hskip
        · exact h
      have h2a : a.1 ∉ RESERVED := fun hm => hskip (Or.inr hm)
      by_cases hc : a.2.isCallable = true
      · rw [initStep, if_neg hskip, if_pos hc]
        by_cases hn : n = a.1
        · subst hn
          rw [dictGet_dictSet_self]
          constructor
          · intro _
            refine Or.inr ⟨a.2, ?_, h1a, h2a, hc⟩
            rw [Prod.mk.eta]
            exact List.mem_cons_self _ _
          · intro _
            exact Or.inl rfl
        · rw [dictGet_dictSet_ne n a.1 _ t₀ hn]
          constructor
          · rintro (h | ⟨o, ho, h1, h2, h3⟩)
            · exact Or.inl h
            · exact Or.inr ⟨o, List.mem_cons_of_mem _ ho, h1, h2, h3⟩
          · rintro (h | ⟨o, ho, h1, h2, h3⟩)
            · exact Or.inl h
            · rcases List.mem_cons.mp ho with he | ho'
              · exact absurd (congrArg Prod.fst he) hn
              · exact Or.inr ⟨o, ho', h1, h2, h3⟩
      · rw [initStep, if_neg hskip, if_neg hc]
        constructor
        · rintro (h | ⟨o, ho, h1, h2, h3⟩)
          · exact Or.inl h
          · exact Or.inr ⟨o, List.mem_cons_of_mem _ ho, h1, h2, h3⟩
        · rintro (h | ⟨o, ho, h1, h2, h3⟩)
          · exact Or.inl h
          · rcases List.mem_cons.mp ho with he | ho'
            · exfalso
              have h2o : a.2 = o := congrArg Prod.snd he.symm
              rw [h2o] at hc
              exact hc h3
            · exact Or.inr ⟨o, ho', h1, h2, h3⟩

/-- A service method for the modelled attribute inventory. -/
def mkMethod (n : String) : PyObj := .callable n (fun _ _ => .ok (.val .vnone))

/-- Modelled from the spec: the attribute inventory (`dir(self)` with each
attribute's value) of a freshly constructed service. The attributes of
`RPCServiceBase` itself are read off src/netcall/service.py (`register`
and its aliases `task` and `proc`, the abstract `start`/`stop`/`serve`,
the private helpers, the `procedures` dict); the endpoint methods
`reset`, `bind`, `bind_ports`, `connect` belong to the `RPCBase` class of
the absent `netcall/base.py` module, modelled per spec §4.4-4.5 and the
zpyrpc `RPCBase` present at src/zpyrpc/service.py lines 53-129 (which
also carries the non-callable `socket` and `urls` attributes).
`dir()` enumerates alphabetically. -/
def freshServiceAttrs : List (String × PyObj) := [
  ("_build_reply", mkMethod "_build_reply"),
  ("_create_socket", mkMethod "_create_socket"),
  ("_parse_request", mkMethod "_parse_request"),
  ("_send_fail", mkMethod "_send_fail"),
  ("_send_ok", mkMethod "_send_ok"),
  ("_serializer", .plain .vnone),
  ("bind", mkMethod "bind"),
  ("bind_ports", mkMethod "bind_ports"),
  ("connect", mkMethod "connect"),
  ("proc", mkMethod "register"),
  ("procedures", .plain .vnone),
  ("register", mkMethod "register"),
  ("reset", mkMethod "reset"),
  ("serve", mkMethod "serve"),
  ("socket", .plain .vnone),
  ("start", mkMethod "start"),
  ("stop", mkMethod "stop"),
  ("task", mkMethod "register"),
  ("urls", .plain .vnone)]

/-- C10: constructing an `RPCServiceBase` auto-populates the procedure
table with exactly the public callable attributes whose names are not in
the literal `_RESERVED` list — so on a fresh service the framework
methods `register` (the list misspells it `registser`), `connect`,
`bind`, `bind_ports` and `reset` are keys of the table, while `proc`,
`task`, `start`, `stop`, `serve`, non-callables and private names
are not. -/
theorem claim_C10_init_auto_registers :
    (∀ (attrs : List (String × PyObj)) (n : String) (o : PyObj),
        (n, o) ∈ attrs → startsWithUnderscore n = false → n ∉ RESERVED →
        o.isCallable = true →
        (dictGet n (initProcedures attrs)).isSome = true) ∧
    (∀ (attrs : List (String × PyObj)) (n : String),
        (dictGet n (initProcedures attrs)).isSome = true →
        startsWithUnderscore n = false ∧ n ∉ RESERVED) ∧
    (dictGet "register" (initProcedures freshServiceAttrs)).isSome = true ∧
    (dictGet "connect" (initProcedures freshServiceAttrs)).isSome = true ∧
    (dictGet "bind" (initProcedures freshServiceAttrs)).isSome = true ∧
    (dictGet "bind_ports" (initProcedures freshServiceAttrs)).isSome = true ∧
    (dictGet "reset" (initProcedures freshServiceAttrs)).isSome = true ∧
    dictGet "proc" (initProcedures freshServiceAttrs) = none ∧
    dictGet "task" (initProcedures freshServiceAttrs) = none ∧
    dictGet "start" (initProcedures freshServiceAttrs) = none ∧
    dictGet "stop" (initProcedures freshServiceAttrs) = none ∧
    dictGet "serve" (initProcedures freshServiceAttrs) = none ∧
    dictGet "procedures" (initProcedures freshServiceAttrs) = none ∧
    dictGet "_parse_request" (initProcedures freshServiceAttrs) = none := by
  refine ⟨?_, ?_, by rfl, by rfl, by rfl, by rfl, by rfl, by rfl, by rfl,
          by rfl, by rfl, by rfl, by rfl, by rfl⟩
  · intro attrs n o hm h1 h2 h3
    exact (initFold_isSome attrs [] n).mpr (Or.inr ⟨o, hm, h1, h2, h3⟩)
  · intro attrs n h
    rcases (initFold_isSome attrs [] n).mp h with h | ⟨o, _, h1, h2, _⟩
    · simp [dictGet] at h
    · exact ⟨h1, h2⟩

/-- Witness for C10 at a concrete inventory and name. -/
theorem claim_C10_witness :
    (dictGet "echo" (initProcedures [("echo", dummyFn)])).isSome = true :=
  claim_C10_init_auto_registers.1 [("echo", dummyFn)] "echo" dummyFn
    (List.mem_singleton.mpr rfl) (by rfl) (by decide) (by rfl)

/-- C3 counterexample: a non-ignore `call` with a positive timeout, at the
moment its request is already handed to the send path (`req_queue.put` /
`socket.send_multipart`), has NO pending entry under its req_id — in the
threading client the timeout timer is even already running — because both
clients register the future only afterwards
(src/netcall/threading/client.py lines 249-267,
src/netcall/green/client.py lines 189-204). The claim demands exactly one
entry from the hand-off on. -/
theorem claim_C3_counterexample :
    (threadingCall [] "r1" 0 false (some 5)).timerStarted = true ∧
    dictGet "r1" (threadingCall [] "r1" 0 false (some 5)).afterSend = none ∧
    dictCount "r1" (threadingCall [] "r1" 0 false (some 5)).afterSend = 0 ∧
    dictCount "r1" (geventCall [] "r1" 0 false (some 5)).afterSend = 0 :=
  ⟨rfl, rfl, rfl, rfl⟩

/-- C3 (amended): for a non-ignore call with a fresh req_id, no pending
entry exists while the request is in the send path; exactly one pending
entry, holding the caller's future, exists from the moment `call`
registers it (after the send, and after the timer start), and it is
removed exactly when a terminal non-ACK reply or the timeout abort
resolves the future. The gevent `call` maintains the registry
identically. -/
theorem claim_C3_pending_registry (results : Results) (req_id : Frame)
    (fid : Nat) (timeout : Option Int)
    (hfresh : dictCount req_id results = 0) :
    (threadingCall results req_id fid false timeout).afterSend = results ∧
    dictCount req_id (threadingCall results req_id fid false timeout).afterSend = 0 ∧
    (threadingCall results req_id fid false timeout).final = dictSet req_id fid results ∧
    dictCount req_id (dictSet req_id fid results) = 1 ∧
    dictGet req_id (dictSet req_id fid results) = some fid ∧
    (∀ msg_list rep, parse_reply msg_list = some rep → rep.req_id = req_id →
        rep.tag ≠ "ACK" →
        io_handle_reply (dictSet req_id fid results) msg_list =
          (dictDel req_id (dictSet req_id fid results),
           some (fid, if rep.tag = "OK" then Resolution.setResult rep.result
                      else Resolution.setException rep.result)) ∧
        dictCount req_id (dictDel req_id (dictSet req_id fid results)) = 0) ∧
    abort_request (dictSet req_id fid results) req_id =
      (dictDel req_id (dictSet req_id fid results), some fid) ∧
    geventCall results req_id fid false timeout =
      threadingCall results req_id fid false timeout := by
  refine ⟨rfl, hfresh, rfl, dictCount_dictSet_self _ _ _,
          dictGet_dictSet_self _ _ _, ?_, ?_, rfl⟩
  · intro msg_list rep hp hr ht
    have hget : dictGet rep.req_id (dictSet req_id fid results) = some fid := by
      rw [hr]; exact dictGet_dictSet_self _ _ _
    constructor
    · simp only [io_handle_reply, hp]
      rw [if_neg ht]
      simp only [hget]
      rw [hr]
    · exact dictCount_dictDel_self _ _
  · simp only [abort_request, dictGet_dictSet_self]

/-- Witness for the amended C3 at a concrete registry, req_id and
timeout. -/
theorem claim_C3_witness :
    dictCount "r1" ([] : Results) = 0 ∧
    dictGet "r1" (dictSet "r1" 0 ([] : Results)) = some 0 :=
  ⟨rfl, (claim_C3_pending_registry [] "r1" 0 (some 5) rfl).2.2.2.2.1⟩

/-- C8: a call with `ignore=true` returns the empty value immediately
after handing the frames to the send path, starts no timer, creates no
pending entry for its req_id, and any later reply carrying that req_id is
dropped by the reader as an orphan, leaving the registry untouched
(src/netcall/threading/client.py lines 249-252 and 192-196,
src/netcall/green/client.py lines 189-192 and 133-137). -/
theorem claim_C8_ignore_no_pending (results : Results) (req_id : Frame)
    (fid : Nat) (timeout : Option Int)
    (hfresh : dictGet req_id results = none) :
    (threadingCall results req_id fid true timeout).earlyReturn = true ∧
    (threadingCall results req_id fid true timeout).timerStarted = false ∧
    (threadingCall results req_id fid true timeout).final = results ∧
    geventCall results req_id fid true timeout =
      threadingCall results req_id fid true timeout ∧
    (∀ msg_list rep, parse_reply msg_list = some rep → rep.req_id = req_id →
        io_handle_reply (threadingCall results req_id fid true timeout).final
          msg_list = (results, none)) := by
  refine ⟨rfl, rfl, rfl, rfl, ?_⟩
  intro msg_list rep hp hr
  show io_handle_reply results msg_list = (results, none)
  simp only [io_handle_reply, hp]
  by_cases hack : rep.tag = "ACK"
  · rw [if_pos hack]
  · rw [if_neg hack, hr, hfresh]

/-- Witness for C8 at a concrete registry, req_id and reply. -/
theorem claim_C8_witness :
    dictGet "r1" ([] : Results) = none ∧
    (threadingCall [] "r1" 0 true (some 5)).earlyReturn = true ∧
    io_handle_reply (threadingCall [] "r1" 0 true (some 5)).final
      [SEP, "r1", "OK"] = ([], none) := by
  have h := claim_C8_ignore_no_pending [] "r1" 0 (some 5) rfl
  exact ⟨rfl, h.1, h.2.2.2.2 [SEP, "r1", "OK"] ⟨"r1", "OK", []⟩ rfl rfl⟩

/-- Inversion of the legacy `_parse_request` on success: the request's
route is the frames preceding the first separator and its msg_id is the
frame right after it. -/
theorem parse_request_ok_inv (procs : Procedures)
    (deser : List Frame → Except PyErr (Args × Kwargs)) (msg_list : List Frame)
    (req : LegacyRequest)
    (hp : parse_request procs deser msg_list = .ok (some req)) :
    req.route = msg_list.take (msg_list.indexOf SEP) ∧
    req.msg_id = msg_list.getD (msg_list.indexOf SEP + 1) "" := by
  simp only [parse_request] at hp
  split at hp
  · cases hp
  · split at hp
    · cases hp
    · split at hp
      · cases hp
      · simp only [Except.ok.injEq, Option.some.injEq] at hp
        rw [← hp]
        exact ⟨rfl, rfl⟩

/-- Inversion of the current base's `_parse_request` on success: same
route/req_id extraction. -/
theorem parse_request_v2_inv (procs : Procedures)
    (deser : List Frame → Except PyErr (Args × Kwargs)) (msg_list : List Frame)
    (req : Request)
    (hp : parse_request_v2 procs deser msg_list = some req) :
    req.route = msg_list.take (msg_list.indexOf SEP) ∧
    req.req_id = msg_list.getD (msg_list.indexOf SEP + 1) "" := by
  simp only [parse_request_v2] at hp
  split at hp
  · cases hp
  · split at hp
    · rename_i req_id name hget1 hget2
      split at hp
      · cases hp
      · split at hp
        · simp only [Option.some.injEq] at hp
          rw [← hp]
          refine ⟨rfl, ?_⟩
          show req_id = _
          rw [List.getD_eq_get?, hget1]
          rfl
        · simp only [Option.some.injEq] at hp
          rw [← hp]
          refine ⟨rfl, ?_⟩
          show req_id = _
          rw [List.getD_eq_get?, hget1]
          rfl
    · cases hp

/-- C7: every reply the service builds for a parsed request — legacy
`_build_reply` with any status, and the current base's ACK, OK, FAIL and
YIELD builders — starts byte-for-byte with the request's route prefix
(the frames preceding the first `b'|'` of the request), followed by
`b'|'`, the request's req_id unchanged, and the status tag. -/
theorem claim_C7_reply_route :
    (∀ (procs : Procedures) (deser : List Frame → Except PyErr (Args × Kwargs))
       (msg_list : List Frame) (req : LegacyRequest),
       parse_request procs deser msg_list = .ok (some req) →
       ∀ status data,
         (build_reply req status data).frames =
           msg_list.take (msg_list.indexOf SEP) ++
           [SEP, msg_list.getD (msg_list.indexOf SEP + 1) "", status] ++ data) ∧
    (∀ (procs : Procedures) (deser : List Frame → Except PyErr (Args × Kwargs))
       (msg_list : List Frame) (req : Request),
       parse_request_v2 procs deser msg_list = some req →
       req.route = msg_list.take (msg_list.indexOf SEP) ∧
       req.req_id = msg_list.getD (msg_list.indexOf SEP + 1) "" ∧
       (∀ sid, (ack_reply req sid).frames =
          req.route ++ [SEP, req.req_id, "ACK", sid]) ∧
       (∀ res, (ok_reply req res).frames =
          req.route ++ [SEP, req.req_id, "OK"] ++ serCallResult res) ∧
       (∀ e, (fail_reply req e).frames =
          req.route ++ [SEP, req.req_id, "FAIL", jsonErr e]) ∧
       (yield_reply req none).frames = req.route ++ [SEP, req.req_id, "YIELD"] ∧
       (∀ v, (yield_reply req (some v)).frames =
          req.route ++ [SEP, req.req_id, "YIELD", serValue v])) := by
  constructor
  · intro procs deser msg_list req hp status data
    obtain ⟨hr, hm⟩ := parse_request_ok_inv procs deser msg_list req hp
    show req.route ++ [SEP, req.msg_id, status] ++ data = _
    rw [hr, hm]
  · intro procs deser msg_list req hp
    obtain ⟨hr, hm⟩ := parse_request_v2_inv procs deser msg_list req hp
    refine ⟨hr, hm, fun sid => ?_, fun res => ?_, fun e => ?_, ?_, fun v => ?_⟩ <;>
      simp [ack_reply, ok_reply, fail_reply, yield_reply, Reply.frames,
            List.append_assoc]

/-- Witness for C7 at a concrete request and reply. -/
theorem claim_C7_witness :
    (build_reply { route := ["id1"], msg_id := "m1", proc := none, args := [],
                   kwargs := [],
                   error := some ⟨"NotImplementedError",
                                  "Unregistered procedure " ++ pyRepr "echo", ""⟩ }
        "OK" ["d"]).frames =
      ["id1", SEP, "m1", "OK", "d"] :=
  claim_C7_reply_route.1 [] emptyDeser ["id1", SEP, "m1", "echo", "x"]
    { route := ["id1"], msg_id := "m1", proc := none, args := [], kwargs := [],
      error := some ⟨"NotImplementedError",
                     "Unregistered procedure " ++ pyRepr "echo", ""⟩ }
    rfl "OK" ["d"]

/-- Characterization of the `proc`/`error` slots of a successfully parsed
request (when the serializer decodes): a streaming command name passes
through with no error; a registered name resolves with no error; an
unregistered name leaves the slot empty and attaches the
`NotImplementedError`. -/
theorem parse_request_v2_slots (procs : Procedures)
    (deser : List Frame → Except PyErr (Args × Kwargs)) (msg_list : List Frame)
    (req : Request)
    (hdeser : ∀ fr, ∃ p, deser fr = .ok p)
    (hp : parse_request_v2 procs deser msg_list = some req) :
    ∃ name, msg_list.get? (msg_list.indexOf SEP + 2) = some name ∧
      ((name ∈ YIELD_CMDS ∧ req.proc = .yieldCmd name ∧ req.error = none) ∨
       (name ∉ YIELD_CMDS ∧
        ∃ f, dictGet name procs = some f ∧ req.proc = .found f ∧
             req.error = none) ∨
       (name ∉ YIELD_CMDS ∧ dictGet name procs = none ∧
        req.proc = .missing ∧
        req.error = some ⟨"NotImplementedError",
                          "Unregistered procedure " ++ pyRepr name, ""⟩)) := by
  simp only [parse_request_v2] at hp
  split at hp
  · cases hp
  · split at hp
    · rename_i req_id name hget1 hget2
      split at hp
      · cases hp
      · obtain ⟨p, hd⟩ := hdeser (msg_list.drop (msg_list.indexOf SEP + 3)).dropLast
        rw [hd] at hp
        simp only [Option.some.injEq] at hp
        refine ⟨name, hget2, ?_⟩
        by_cases hy : name ∈ YIELD_CMDS
        · refine Or.inl ⟨hy, ?_, ?_⟩ <;> rw [← hp] <;> simp [hy]
        · cases hf : dictGet name procs with
          | some f =>
            refine Or.inr (Or.inl ⟨hy, f, rfl, ?_, ?_⟩) <;> rw [← hp] <;>
              simp [hy, hf]
          | none =>
            refine Or.inr (Or.inr ⟨hy, rfl, ?_, ?_⟩) <;> rw [← hp] <;>
              simp [hy, hf]
    · cases hp

/-- C5: for every parsed request (with decodable arguments) whose
proc_name is neither a key of the procedure table nor a streaming
command, the threading service sends a FAIL whose error descriptor has
ename `NotImplementedError` and evalue `Unregistered procedure '<name>'`,
right after the ACK — unless the request's ignore flag is set, in which
case nothing beyond the ACK is sent
(src/netcall/threading/service.py lines 108-125 with the error attached
at parse time, src/netcall/service.py lines 108-111). -/
theorem claim_C5_unregistered_procedure (sid : Frame) (procs : Procedures)
    (deser : List Frame → Except PyErr (Args × Kwargs)) (msg_list : List Frame)
    (req : Request) (name : String)
    (hdeser : ∀ fr, ∃ p, deser fr = .ok p)
    (hp : parse_request_v2 procs deser msg_list = some req)
    (hname : msg_list.get? (msg_list.indexOf SEP + 2) = some name)
    (hnotkey : dictGet name procs = none)
    (hnotyield : name ∉ YIELD_CMDS) :
    req.proc = .missing ∧
    req.error = some ⟨"NotImplementedError",
                      "Unregistered procedure " ++ pyRepr name, ""⟩ ∧
    threading_handle_request sid procs deser msg_list =
      ack_reply req sid ::
      (if req.ignore then []
       else [fail_reply req ⟨"NotImplementedError",
                             "Unregistered procedure " ++ pyRepr name, ""⟩]) := by
  obtain ⟨name', hname', hcases⟩ :=
    parse_request_v2_slots procs deser msg_list req hdeser hp
  have hnn : name' = name := by
    rw [hname] at hname'
    exact (Option.some.injEq _ _).mp hname'.symm
  subst hnn
  rcases hcases with ⟨hy, _, _⟩ | ⟨_, f, hf, _, _⟩ | ⟨_, _, hproc, herr⟩
  · exact absurd hy hnotyield
  · rw [hnotkey] at hf; cases hf
  · refine ⟨hproc, herr, ?_⟩
    simp only [threading_handle_request, hp, dispatch, herr]

/-- Witness for C5 at a concrete unregistered request. -/
theorem claim_C5_witness :
    threading_handle_request "svc" [] emptyDeser
      ["id1", SEP, "r1", "nope", "\x00"] =
      [{ route := ["id1"], req_id := "r1", status := "ACK", data := ["svc"] },
       { route := ["id1"], req_id := "r1", status := "FAIL",
         data := [jsonErr ⟨"NotImplementedError",
                           "Unregistered procedure " ++ pyRepr "nope", ""⟩] }] := by
  have h := claim_C5_unregistered_procedure "svc" [] emptyDeser
    ["id1", SEP, "r1", "nope", "\x00"]
    { route := ["id1"], req_id := "r1", args := [], kwargs := [],
      ignore := false, proc := .missing,
      error := some ⟨"NotImplementedError",
                     "Unregistered procedure " ++ pyRepr "nope", ""⟩ }
    "nope" (fun fr => ⟨([], []), rfl⟩) rfl rfl rfl (by decide)
  exact h.2.2

/-- C6 counterexample: a `YIELD_SEND` request whose req_id is unknown to
the active-generator table but whose ignore byte is set gets only the
ACK — no FAIL is sent, because the handler guards every failure reply
with `not ignore and self._send_fail(req)`
(src/netcall/green/service.py line 134). The claim requires a FAIL for
every such request. -/
theorem claim_C6_counterexample :
    green_handle_request "svc" [] emptyDeser [] []
      ["id1", SEP, "r9", "YIELD_SEND", "\x01"] =
      ([{ route := ["id1"], req_id := "r9", status := "ACK",
          data := ["svc"] }], []) ∧
    ∀ r ∈ (green_handle_request "svc" [] emptyDeser [] []
             ["id1", SEP, "r9", "YIELD_SEND", "\x01"]).1,
      r.status ≠ "FAIL" :=
  ⟨rfl, by decide⟩

/-- C6 (amended): for every parsed streaming-command request
(`YIELD_SEND`/`YIELD_THROW`/`YIELD_CLOSE`, decodable arguments): when the
req_id has no entry in the active-generator table, the service sends a
FAIL with a ValueError descriptor whose evalue is
"req_id does not refer to a known generator" — unless the request's
ignore flag is set, in which case only the ACK is sent; when an entry
exists, the command is enqueued into that generator's command queue
(regardless of ignore) and nothing is dispatched via the registry
(src/netcall/green/service.py lines 119-134). -/
theorem claim_C6_yield_commands (sid : Frame) (procs : Procedures)
    (deser : List Frame → Except PyErr (Args × Kwargs)) (gtable : GTable)
    (cmds : List Cmd) (msg_list : List Frame) (req : Request) (c : String)
    (hdeser : ∀ fr, ∃ p, deser fr = .ok p)
    (hp : parse_request_v2 procs deser msg_list = some req)
    (hcmd : req.proc = .yieldCmd c) :
    req.error = none ∧
    (dictGet req.req_id gtable = none →
       green_handle_request sid procs deser gtable cmds msg_list =
         (ack_reply req sid ::
          (if req.ignore then []
           else [fail_reply req ⟨"ValueError",
                                 "req_id does not refer to a known generator",
                                 ""⟩]),
          gtable)) ∧
    (∀ q, dictGet req.req_id gtable = some q →
       green_handle_request sid procs deser gtable cmds msg_list =
         ([ack_reply req sid],
          dictSet req.req_id (q ++ [(c, req.args)]) gtable)) := by
  obtain ⟨name, hname, hcases⟩ :=
    parse_request_v2_slots procs deser msg_list req hdeser hp
  rcases hcases with ⟨hy, hproc, herr⟩ | ⟨_, f, hf, hproc, _⟩ | ⟨_, _, hproc, _⟩
  · have hnc : name = c := by
      rw [hproc] at hcmd
      cases hcmd
      rfl
    subst hnc
    refine ⟨herr, ?_, ?_⟩
    · intro hnone
      simp only [green_handle_request, hp, herr, hproc, hnone]
    · intro q hq
      simp only [green_handle_request, hp, herr, hproc, hq]
  · rw [hproc] at hcmd; cases hcmd
  · rw [hproc] at hcmd; cases hcmd

/-- Witness for the amended C6 at a concrete known-generator request. -/
theorem claim_C6_witness :
    green_handle_request "svc" [] emptyDeser [("r9", [])] []
      ["id1", SEP, "r9", "YIELD_SEND", "\x00"] =
      ([{ route := ["id1"], req_id := "r9", status := "ACK",
          data := ["svc"] }],
       [("r9", [("YIELD_SEND", ([] : Args))])]) := by
  have h := claim_C6_yield_commands "svc" [] emptyDeser [("r9", [])] []
    ["id1", SEP, "r9", "YIELD_SEND", "\x00"]
    { route := ["id1"], req_id := "r9", args := [], kwargs := [],
      ignore := false, proc := .yieldCmd "YIELD_SEND", error := none }
    "YIELD_SEND" (fun fr => ⟨([], []), rfl⟩) rfl rfl
  exact h.2.2 [] rfl

/-- When the drive loop exits, the last reply it sent is terminal:
`OK` (the `YIELD_CLOSE` branch) or `FAIL` (the bare `except`, including a
spent generator's `StopIteration`). -/
theorem drive_exited_terminal (req : Request) (cmds : List Cmd) :
    ∀ g : Gen, (drive req g cmds).2 = none →
      ∃ r, (drive req g cmds).1.getLast? = some r ∧
           (r.status = "OK" ∨ r.status = "FAIL") := by
  induction cmds with
  | nil =>
    intro g h
    simp [drive] at h
  | cons c rest ih =>
    intro g h
    rw [drive] at h ⊢
    by_cases h1 : c.1 = "YIELD_SEND"
    · rw [if_pos h1] at h ⊢
      cases hs : g.send c.2 with
      | yields v k =>
        simp only [hs] at h ⊢
        cases hdr : drive req k rest with
        | mk rs out =>
          rw [hdr] at h
          dsimp only at h ⊢
          obtain ⟨r, hlast, hst⟩ := ih k (by rw [hdr]; exact h)
          rw [hdr] at hlast
          dsimp only at hlast
          cases rs with
          | nil => simp at hlast
          | cons b t =>
            exact ⟨r, by rw [List.getLast?_cons_cons]; exact hlast, hst⟩
      | raises e =>
        simp only [hs]
        exact ⟨fail_reply req e, rfl, Or.inr rfl⟩
    · rw [if_neg h1] at h ⊢
      by_cases h2 : c.1 = "YIELD_THROW"
      · rw [if_pos h2] at h ⊢
        cases hs : g.throwTo (resolveThrow c.2) with
        | yields v k =>
          simp only [hs] at h ⊢
          cases hdr : drive req k rest with
          | mk rs out =>
            rw [hdr] at h
            dsimp only at h ⊢
            obtain ⟨r, hlast, hst⟩ := ih k (by rw [hdr]; exact h)
            rw [hdr] at hlast
            dsimp only at hlast
            cases rs with
            | nil => simp at hlast
            | cons b t =>
              exact ⟨r, by rw [List.getLast?_cons_cons]; exact hlast, hst⟩
        | raises e =>
          simp only [hs]
          exact ⟨fail_reply req e, rfl, Or.inr rfl⟩
      · rw [if_neg h2] at h ⊢
        cases hc : g.closeRes with
        | none =>
          simp only [hc]
          exact ⟨ok_reply req (.val .vnone), rfl, Or.inl rfl⟩
        | some e =>
          simp only [hc]
          exact ⟨fail_reply req e, rfl, Or.inr rfl⟩

/-- C4: when a procedure call yields a generator (non-ignore request),
the handler inserts exactly one entry keyed by the originating req_id
into the active-generator table, sends the YIELD handshake and drives the
generator; whenever the driver exits — and its last reply is then the
terminal OK or FAIL — the `finally` clause removes that entry, so no
entry for the req_id remains; while the driver is merely parked awaiting
the next command, exactly one entry remains
(src/netcall/green/service.py lines 139-166). -/
theorem claim_C4_generator_table (sid : Frame) (procs : Procedures)
    (deser : List Frame → Except PyErr (Args × Kwargs)) (gtable : GTable)
    (cmds : List Cmd) (msg_list : List Frame) (req : Request) (f : PyObj)
    (g : Gen)
    (hp : parse_request_v2 procs deser msg_list = some req)
    (herr : req.error = none)
    (hproc : req.proc = .found f)
    (hrun : ProcSlot.call (.found f) req.args req.kwargs = .ok (.gen g))
    (hig : req.ignore = false) :
    (green_handle_request sid procs deser gtable cmds msg_list).1 =
      ack_reply req sid :: yield_reply req none :: (drive req g cmds).1 ∧
    ((drive req g cmds).2 = none →
       dictGet req.req_id
         (green_handle_request sid procs deser gtable cmds msg_list).2 = none ∧
       dictCount req.req_id
         (green_handle_request sid procs deser gtable cmds msg_list).2 = 0 ∧
       ∃ r, (drive req g cmds).1.getLast? = some r ∧
            (r.status = "OK" ∨ r.status = "FAIL")) ∧
    (∀ g', (drive req g cmds).2 = some g' →
       dictCount req.req_id
         (green_handle_request sid procs deser gtable cmds msg_list).2 = 1) := by
  cases hdr : drive req g cmds with
  | mk rs out =>
    cases out with
    | none =>
      have hgreen : green_handle_request sid procs deser gtable cmds msg_list =
          (ack_reply req sid :: yield_reply req none :: rs,
           dictDel req.req_id (dictSet req.req_id [] gtable)) := by
        simp [green_handle_request, hp, herr, hproc, hrun, hig, hdr]
      refine ⟨?_, ?_, ?_⟩
      · rw [hgreen]
      · intro _
        have ht := drive_exited_terminal req cmds g (by rw [hdr])
        rw [hdr] at ht
        rw [hgreen]
        exact ⟨dictGet_dictDel_self _ _, dictCount_dictDel_self _ _, ht⟩
      · intro g' hout
        simp at hout
    | some g0 =>
      have hgreen : green_handle_request sid procs deser gtable cmds msg_list =
          (ack_reply req sid :: yield_reply req none :: rs,
           dictSet req.req_id [] gtable) := by
        simp [green_handle_request, hp, herr, hproc, hrun, hig, hdr]
      refine ⟨?_, ?_, ?_⟩
      · rw [hgreen]
      · intro hout
        simp at hout
      · intro g' _
        rw [hgreen]
        exact dictCount_dictSet_self _ _ _

/-- A generator model that yields once and is then spent, and a
registered procedure returning it. -/
def genEnd : Gen :=
  .mk (fun _ => .raises ⟨"StopIteration", "", ""⟩) (fun e => .raises e) none

def genOnce : Gen :=
  .mk (fun _ => .yields (.vint 0) genEnd) (fun e => .raises e) none

def yielderFn : PyObj := .callable "yielder" (fun _ _ => .ok (.gen genOnce))

/-- Witness for C4 at a concrete streaming request driven to
exhaustion. -/
theorem claim_C4_witness :
    dictGet "r7"
      (green_handle_request "svc" [("yielder", yielderFn)] emptyDeser []
        [("YIELD_SEND", []), ("YIELD_SEND", [])]
        ["id1", SEP, "r7", "yielder", "\x00"]).2 = none := by
  have h := claim_C4_generator_table "svc" [("yielder", yielderFn)] emptyDeser []
    [("YIELD_SEND", []), ("YIELD_SEND", [])] ["id1", SEP, "r7", "yielder", "\x00"]
    { route := ["id1"], req_id := "r7", args := [], kwargs := [],
      ignore := false, proc := .found yielderFn, error := none }
    yielderFn genOnce rfl rfl rfl rfl rfl
  exact (h.2.1 rfl).1

/-- Every reply the drive loop sends is YIELD, OK or FAIL. -/
theorem drive_status (req : Request) (cmds : List Cmd) :
    ∀ g : Gen, ∀ r ∈ (drive req g cmds).1,
      r.status = "YIELD" ∨ r.status = "OK" ∨ r.status = "FAIL" := by
  induction cmds with
  | nil =>
    intro g r hr
    simp [drive] at hr
  | cons c rest ih =>
    intro g r hr
    rw [drive] at hr
    by_cases h1 : c.1 = "YIELD_SEND"
    · rw [if_pos h1] at hr
      cases hs : g.send c.2 with
      | yields v k =>
        simp only [hs] at hr
        cases hdr : drive req k rest with
        | mk rs out =>
          rw [hdr] at hr
          dsimp only at hr
          rcases List.mem_cons.mp hr with hre | hr'
          · exact Or.inl (by rw [hre]; rfl)
          · have := ih k r (by rw [hdr]; exact hr')
            exact this
      | raises e =>
        simp only [hs] at hr
        rcases List.mem_cons.mp hr with hre | hr'
        · exact Or.inr (Or.inr (by rw [hre]; rfl))
        · simp at hr'
    · rw [if_neg h1] at hr
      by_cases h2 : c.1 = "YIELD_THROW"
      · rw [if_pos h2] at hr
        cases hs : g.throwTo (resolveThrow c.2) with
        | yields v k =>
          simp only [hs] at hr
          cases hdr : drive req k rest with
          | mk rs out =>
            rw [hdr] at hr
            dsimp only at hr
            rcases List.mem_cons.mp hr with hre | hr'
            · exact Or.inl (by rw [hre]; rfl)
            · exact ih k r (by rw [hdr]; exact hr')
        | raises e =>
          simp only [hs] at hr
          rcases List.mem_cons.mp hr with hre | hr'
          · exact Or.inr (Or.inr (by rw [hre]; rfl))
          · simp at hr'
      · rw [if_neg h2] at hr
        cases hc : g.closeRes with
        | none =>
          simp only [hc] at hr
          rcases List.mem_cons.mp hr with hre | hr'
          · exact Or.inr (Or.inl (by rw [hre]; rfl))
          · simp at hr'
        | some e =>
          simp only [hc] at hr
          rcases List.mem_cons.mp hr with hre | hr'
          · exact Or.inr (Or.inr (by rw [hre]; rfl))
          · simp at hr'

/-- The mandated status-tag set of spec §6. -/
def TAGS : List String := ["OK", "YIELD", "FAIL", "ACK"]

theorem mem_tags_ack (req : Request) (sid : Frame) :
    (ack_reply req sid).status ∈ TAGS := by
  show "ACK" ∈ TAGS
  decide

theorem mem_tags_ok (req : Request) (res : CallResult) :
    (ok_reply req res).status ∈ TAGS := by
  show "OK" ∈ TAGS
  decide

theorem mem_tags_fail (req : Request) (e : PyErr) :
    (fail_reply req e).status ∈ TAGS := by
  show "FAIL" ∈ TAGS
  decide

theorem mem_tags_yield (req : Request) (v : Option Value) :
    (yield_reply req v).status ∈ TAGS := by
  show "YIELD" ∈ TAGS
  decide

/-- A registered `echo` for the tag-comparison claims, in both the
zpyrpc and the netcall procedure-table formats, together with a
serializer decoding any frames to the single argument `3`. -/
def echoZ : ZProc := ⟨true, fun a _ => .ok (a.headD .vnone)⟩

def echoObj : PyObj :=
  .callable "echo" (fun a _ => .ok (.val (a.headD .vnone)))

def okDeser : List Frame → Except PyErr (Args × Kwargs) :=
  fun _ => .ok ([.vint 3], [])

/-- C9 counterexample: for equivalent `echo` requests, the legacy zpyrpc
builder tags success `b'SUCCESS'` (src/zpyrpc/service.py line 184) — a
tag outside the mandated {OK, YIELD, FAIL, ACK} — while the current
netcall path tags it `b'OK'` (src/netcall/service.py line 68), so the
two reply builders do not agree. -/
theorem claim_C9_counterexample :
    zpyrpc_handle_request [("echo", echoZ)] okDeser
        ["id1", SEP, "m1", "echo", "x"] =
      .ok [{ route := ["id1"], req_id := "m1", status := "SUCCESS",
             data := [serValue (.vint 3)] }] ∧
    threading_handle_request "svc" [("echo", echoObj)] okDeser
        ["id1", SEP, "m1", "echo", "x", "\x00"] =
      [{ route := ["id1"], req_id := "m1", status := "ACK", data := ["svc"] },
       { route := ["id1"], req_id := "m1", status := "OK",
         data := [serValue (.vint 3)] }] ∧
    "SUCCESS" ∉ TAGS ∧
    ("SUCCESS" : String) ≠ "OK" :=
  ⟨rfl, rfl, by decide, by decide⟩

/-- C9 (amended): every reply built by the current netcall service
handlers carries a status tag drawn from {OK, YIELD, FAIL, ACK}; the
legacy zpyrpc builder instead tags replies `SUCCESS`/`FAILURE`, tags
outside that set, so the legacy and current builders do not agree on the
success and failure tags. -/
theorem claim_C9_status_tags :
    (∀ (sid : Frame) (procs : Procedures)
       (deser : List Frame → Except PyErr (Args × Kwargs)) (gtable : GTable)
       (cmds : List Cmd) (msg_list : List Frame),
       ∀ r ∈ (green_handle_request sid procs deser gtable cmds msg_list).1,
         r.status ∈ TAGS) ∧
    (∀ (sid : Frame) (procs : Procedures)
       (deser : List Frame → Except PyErr (Args × Kwargs))
       (msg_list : List Frame),
       ∀ r ∈ threading_handle_request sid procs deser msg_list,
         r.status ∈ TAGS) ∧
    (∀ (methods : ZMethods)
       (deser : List Frame → Except PyErr (Args × Kwargs))
       (msg_list : List Frame) (rs : List Reply),
       zpyrpc_handle_request methods deser msg_list = .ok rs →
       ∀ r ∈ rs,
         (r.status = "SUCCESS" ∨ r.status = "FAILURE") ∧
         r.status ∉ TAGS) := by
  refine ⟨?_, ?_, ?_⟩
  · intro sid procs deser gtable cmds msg_list r hr
    rw [green_handle_request] at hr
    split at hr
    · simp at hr
    · rename_i req hreq
      split at hr
      · rcases List.mem_cons.mp hr with hre | hr'
        · rw [hre]; exact mem_tags_ack _ _
        · split at hr'
          · simp at hr'
          · simp at hr'
            rw [hr']; exact mem_tags_fail _ _
      · split at hr
        · split at hr
          · rcases List.mem_cons.mp hr with hre | hr'
            · rw [hre]; exact mem_tags_ack _ _
            · split at hr'
              · simp at hr'
              · simp at hr'
                rw [hr']; exact mem_tags_fail _ _
          · simp at hr
            rw [hr]; exact mem_tags_ack _ _
        · split at hr
          · rcases List.mem_cons.mp hr with hre | hr'
            · rw [hre]; exact mem_tags_ack _ _
            · split at hr'
              · simp at hr'
              · simp at hr'
                rw [hr']; exact mem_tags_fail _ _
          · split at hr
            · simp at hr
              rw [hr]; exact mem_tags_ack _ _
            · split at hr
              · split at hr
                · rename_i rs out hdr
                  rcases List.mem_cons.mp hr with hre | hr'
                  · rw [hre]; exact mem_tags_ack _ _
                  · rcases List.mem_cons.mp hr' with hre2 | hr2
                    · rw [hre2]; exact mem_tags_yield _ _
                    · rename_i g _ _
                      have hd := drive_status req cmds g r (by rw [hdr]; exact hr2)
                      rcases hd with h | h | h <;> rw [h] <;> decide
              · simp at hr
                rcases hr with hre | hre
                · rw [hre]; exact mem_tags_ack _ _
                · rw [hre]; exact mem_tags_ok _ _
  · intro sid procs deser msg_list r hr
    rw [threading_handle_request] at hr
    split at hr
    · simp at hr
    · rcases List.mem_cons.mp hr with hre | hr'
      · rw [hre]; exact mem_tags_ack _ _
      · split at hr'
        · split at hr'
          · simp at hr'
          · simp at hr'
            rw [hr']; exact mem_tags_fail _ _
        · split at hr'
          · simp at hr'
          · simp at hr'
            rw [hr']; exact mem_tags_ok _ _
  · intro methods deser msg_list rs hok r hr
    simp only [zpyrpc_handle_request] at hok
    split at hok
    · cases hok
    · split at hok
      · cases hok
      · split at hok
        · cases hok
        · split at hok <;>
            (simp only [Except.ok.injEq] at hok
             rw [← hok] at hr
             simp at hr
             rw [hr]
             exact ⟨by first | exact Or.inl rfl | exact Or.inr rfl,
                    by simp [TAGS]⟩)

/-- Witness for the amended C9 at concrete requests on all three
handlers. -/
theorem claim_C9_witness :
    (∀ r ∈ (green_handle_request "svc" [("echo", echoObj)] okDeser [] []
              ["id1", SEP, "m1", "echo", "x", "\x00"]).1,
       r.status ∈ TAGS) ∧
    (∀ r ∈ threading_handle_request "svc" [("echo", echoObj)] okDeser
             ["id1", SEP, "m1", "echo", "x", "\x00"],
       r.status ∈ TAGS) ∧
    (∀ r ∈ ([{ route := ["id1"], req_id := "m1", status := "SUCCESS",
               data := [serValue (.vint 3)] }] : List Reply),
       (r.status = "SUCCESS" ∨ r.status = "FAILURE") ∧
       r.status ∉ TAGS) :=
  ⟨claim_C9_status_tags.1 "svc" [("echo", echoObj)] okDeser [] []
     ["id1", SEP, "m1", "echo", "x", "\x00"],
   claim_C9_status_tags.2.1 "svc" [("echo", echoObj)] okDeser
     ["id1", SEP, "m1", "echo", "x", "\x00"],
   claim_C9_status_tags.2.2 [("echo", echoZ)] okDeser
     ["id1", SEP, "m1", "echo", "x"] _ rfl⟩

end Netcall
